import Mathlib

/-!
SmartCane1301: load-cell cane firmware

A shallow embedding of the two firmware programs of the repository,

* `src/forcedetector.cpp` (namespace `ForceDetector`): EMA smoothing, force,
  pressure and contact-area figures, start/stop contact detection with a
  step counter;
* `src/SmartCaneV1/src/SmartCaneV1.cpp` (namespace `SmartCaneV1`): button
  toggled logging sessions, force conditioning, step detection, JSON upload.

Modelling conventions.

* `float`/`double` values are exact rationals (`ℚ`): no rounding, no NaN, no
  infinities. A division by zero is `0` in `ℚ`; the divisors of the source,
  `calibrationFactor` and `sensorArea_cm2`, are non-zero constants.
* `int stepCount` is an unbounded `Int`: signed overflow is undefined in C++
  and would need `2^31` counted steps.
* `unsigned long` / `size_t` values are `Nat`, with the 32-bit wrap-around of
  the target written out where a subtraction can wrap.
* Global variables become fields of a state record; globals that are only
  written at their definition (or once in `setup`) become a `Config` record
  whose `defaultConfig` carries the values of the source.
* Calls to the outside world (`Particle.publish`, `digitalWrite`, `delay`)
  are recorded, in order, in a list of output events returned next to the new
  state. `Serial` debug printing is not recorded.
-/

namespace ForceDetector

/-- The constant `g` of `forcedetector.cpp` (standard gravity, m/s²). -/
def g : ℚ := 980665 / 100000

/-- Globals of `forcedetector.cpp` that are never assigned after their
definition: `alpha`, `thresholdKg`, `sensorArea_cm2`. -/
structure Config where
  alpha : ℚ
  thresholdKg : ℚ
  sensorArea_cm2 : ℚ
  deriving DecidableEq

/-- The values the source gives them: `alpha = 0.15`, `thresholdKg = 0.5`,
`sensorArea_cm2 = 4.0`. -/
def defaultConfig : Config :=
  { alpha := 15 / 100, thresholdKg := 5 / 10, sensorArea_cm2 := 4 }

/-- The mutable globals of `forcedetector.cpp`. -/
structure State where
  ema : ℚ
  inContact : Bool
  stepCount : Int
  forceN : ℚ
  pressure_kPa : ℚ
  est_contact_area_cm2 : ℚ
  weightForCloud : ℚ
  forceForCloud : ℚ
  pressureForCloud : ℚ
  areaForCloud : ℚ
  stepsForCloud : Int
  deriving DecidableEq

/-- The values of the globals when `loop` first runs. -/
def initState : State :=
  { ema := 0, inContact := false, stepCount := 0, forceN := 0,
    pressure_kPa := 0, est_contact_area_cm2 := 0, weightForCloud := 0,
    forceForCloud := 0, pressureForCloud := 0, areaForCloud := 0,
    stepsForCloud := 0 }

/-- The cloud messages of `loop`: `cane_start` and `cane_stop` carry the
smoothed mass (sent as `String(kg, 3)`), `cane_step` the step count. -/
inductive Event where
  | cane_start (kg : ℚ)
  | cane_stop (kg : ℚ)
  | cane_step (stepCount : Int)
  deriving DecidableEq

/-- Section 2 of `loop`, EMA smoothing:
`if (ema == 0) ema = rawKg; ema = alpha * rawKg + (1 - alpha) * ema;`. -/
def smoothing (c : Config) (rawKg : ℚ) (s : State) : State :=
  let s1 := if s.ema = 0 then { s with ema := rawKg } else s
  { s1 with ema := c.alpha * rawKg + (1 - c.alpha) * s1.ema }

/-- Sections 3 and 4 of `loop`: force, constant-area pressure and the
estimated contact area, from the smoothed mass `kg`. -/
def physics (c : Config) (kg : ℚ) (s : State) : State :=
  let forceN := kg * g
  let area_m2 := c.sensorArea_cm2 * (1 / 10000)
  let pressure_kPa := (forceN / area_m2) / 1000
  let est_contact_area_cm2 := c.sensorArea_cm2 + (kg * (125 / 100))
  { s with
    weightForCloud := kg
    forceN := forceN
    forceForCloud := forceN
    pressure_kPa := pressure_kPa
    pressureForCloud := pressure_kPa
    est_contact_area_cm2 := est_contact_area_cm2
    areaForCloud := est_contact_area_cm2 }

/-- Section 5 of `loop`, step detection (start/stop), from the smoothed mass
`kg`; the two `if` statements run one after the other. -/
def stepDetection (c : Config) (kg : ℚ) (s : State) : State × List Event :=
  let above : Bool := decide (kg ≥ c.thresholdKg)
  let r1 : State × List Event :=
    if !s.inContact && above then
      ({ s with inContact := true }, [Event.cane_start kg])
    else (s, [])
  let s1 := r1.1
  let r2 : State × List Event :=
    if s1.inContact && !above then
      ({ s1 with
          inContact := false
          stepCount := s1.stepCount + 1
          stepsForCloud := s1.stepCount + 1 },
        [Event.cane_stop kg, Event.cane_step (s1.stepCount + 1)])
    else (s1, [])
  (r2.1, r1.2 ++ r2.2)

/-- One run of `loop()` on the reading `rawKg = scale.get_units(1)`. -/
def loop (c : Config) (s : State) (rawKg : ℚ) : State × List Event :=
  let s1 := smoothing c rawKg s
  let kg := s1.ema
  let s2 := physics c kg s1
  stepDetection c kg s2

/-- The state after running `loop` once per reading, first reading first. -/
def runLoop (c : Config) (s : State) : List ℚ → State
  | [] => s
  | rawKg :: rest => runLoop c (loop c s rawKg).1 rest

/-- The smoothed value after the readings `xs`, from power-up. -/
def smoothed (c : Config) (xs : List ℚ) : ℚ := (runLoop c initState xs).ema

/-- Step detection fed a sequence of smoothed values, returning the final
state and the events of every step. -/
def detectAll (c : Config) : State → List ℚ → State × List (List Event)
  | s, [] => (s, [])
  | s, kg :: rest =>
    let r := stepDetection c kg s
    let rs := detectAll c r.1 rest
    (rs.1, r.2 :: rs.2)

end ForceDetector

namespace SmartCaneV1

/-- Globals of `SmartCaneV1.cpp` that `loop` never assigns:
`calibrationFactor`, `zeroOffset` (written once, in `setup`),
`stepThreshold` and `sampleInterval`. -/
structure Config where
  calibrationFactor : ℚ
  zeroOffset : ℚ
  stepThreshold : ℚ
  sampleInterval : Nat
  deriving DecidableEq

/-- The values the source gives them (`calibrationFactor = -7050`,
`stepThreshold = 10.0`, `sampleInterval = 100`), for the `zeroOffset` read in
`setup`. -/
def defaultConfig (zeroOffset : ℚ) : Config :=
  { calibrationFactor := -7050, zeroOffset := zeroOffset,
    stepThreshold := 10, sampleInterval := 100 }

/-- The mutable globals of `SmartCaneV1.cpp`. -/
structure State where
  aboveThreshold : Bool
  forceData : List ℚ
  timeData : List Nat
  stepCount : Int
  loggingActive : Bool
  prevButton : Bool
  lastSample : Nat
  deriving DecidableEq

/-- The values of the globals when `loop` first runs. -/
def initState : State :=
  { aboveThreshold := false, forceData := [], timeData := [], stepCount := 0,
    loggingActive := false, prevButton := false, lastSample := 0 }

/-- What the firmware does to the outside world: `digitalWrite(LED_PIN, _)`,
`delay(_)` and `Particle.publish(name, data, PRIVATE)`. -/
inductive Output where
  | digitalWrite (high : Bool)
  | delay (ms : Nat)
  | publish (name : String) (data : String)
  deriving DecidableEq

/-- What one run of `loop` reads from the outside world:
`digitalRead(BUTTON_PIN)`, the three `millis()` calls of the logging branch
(interval test, `lastSample`, `timeData.push_back`) and `scale.read()`. -/
structure Input where
  pressed : Bool
  millisTest : Nat
  millisLast : Nat
  raw : ℚ
  millisPush : Nat
  deriving DecidableEq

/-- The function `readForce`, on the reading `raw = scale.read()`. -/
def readForce (c : Config) (raw : ℚ) : ℚ :=
  let f := (raw - c.zeroOffset) * (1 / c.calibrationFactor) * 100
  if f < 0 then 0 else f

/-- The function `detectStep`: the two `if` statements run one after the other. -/
def detectStep (c : Config) (force : ℚ) (s : State) : State :=
  let s1 :=
    if force > c.stepThreshold && !s.aboveThreshold then
      { s with stepCount := s.stepCount + 1, aboveThreshold := true }
    else s
  if force < c.stepThreshold then { s1 with aboveThreshold := false } else s1

/-- The conversion `%.2f` of `String::format`, on an exact value: the nearest
multiple of `0.01` (a tie goes to the even hundredth), with two digits after
the point and a minus sign for a negative value. -/
def fixed2 (q : ℚ) : String :=
  let a : Nat := q.num.natAbs * 100
  let fl : Nat := a / q.den
  let rem : Nat := a % q.den
  let n : Nat :=
    if 2 * rem < q.den then fl
    else if q.den < 2 * rem then fl + 1
    else if fl % 2 = 0 then fl else fl + 1
  (if q < 0 then "-" else "") ++ toString (n / 100) ++ "." ++
    (if n % 100 < 10 then "0" else "") ++ toString (n % 100)

/-- The call `String::format("{\"t\":%lu,\"f\":%.2f}", t, f)`. -/
def formatSample (t : Nat) (f : ℚ) : String :=
  "\x7b\"t\":" ++ toString t ++ ",\"f\":" ++ fixed2 f ++ "\x7d"

/-- The `size_t` value `size - 1`: it wraps to `2^32 - 1` at `size = 0`
(sizes are below `2^32` on the 32-bit target). -/
def sizeMinusOne (size : Nat) : Nat :=
  if size = 0 then 4294967295 else size - 1

/-- The body of the `for` loop of `buildJSON` at index `i`; `none` when
`timeData[i]` or `forceData[i]` is read out of bounds. -/
def buildJSONBody (s : State) (json : String) (i : Nat) : Option String :=
  match s.timeData[i]?, s.forceData[i]? with
  | some t, some f =>
    let json1 := json ++ formatSample t f
    some (if i < sizeMinusOne s.forceData.length then json1 ++ "," else json1)
  | _, _ => none

/-- The function `buildJSON`: the `for` loop runs its body for
`i = 0, ..., forceData.size() - 1`, in this order. -/
def buildJSON (s : State) : Option String :=
  let json := "\x7b \"steps\": " ++ toString s.stepCount ++ ", \"force\": ["
  ((List.range s.forceData.length).foldlM (buildJSONBody s) json).map
    fun json1 => json1 ++ "] \x7d"

/-- The three LED blinks at the start of `uploadSession`. -/
def blink : List Output :=
  [Output.digitalWrite true, Output.delay 150,
   Output.digitalWrite false, Output.delay 150]

/-- The function `uploadSession`; `none` when `buildJSON` reads out of bounds. -/
def uploadSession (s : State) : Option (State × List Output) :=
  match buildJSON s with
  | none => none
  | some payload =>
    some ({ s with forceData := [], timeData := [], stepCount := 0,
                   aboveThreshold := false },
          blink ++ blink ++ blink ++
            [Output.publish "session_data" payload,
             Output.publish "status" "Upload Complete"])

/-- The `unsigned long` difference `now - lastSample`, modulo `2^32`. -/
def elapsed (now lastSample : Nat) : Nat :=
  (now + 4294967296 - lastSample) % 4294967296

/-- First half of `loop`: the button's rising edge toggles `loggingActive`,
starting a session or stopping and uploading it; then `prevButton` is
updated. -/
def buttonPhase (s : State) (pressed : Bool) : Option (State × List Output) :=
  let r : Option (State × List Output) :=
    if pressed && !s.prevButton then
      let s0 := { s with loggingActive := !s.loggingActive }
      if s0.loggingActive then
        some ({ s0 with forceData := [], timeData := [], stepCount := 0,
                        aboveThreshold := false },
              [Output.digitalWrite true,
               Output.publish "status" "Logging Started"])
      else
        match uploadSession s0 with
        | none => none
        | some (s1, out) =>
          some (s1, [Output.digitalWrite false,
                     Output.publish "status" "Logging Stopped"] ++ out)
    else some (s, [])
  r.map fun p => ({ p.1 with prevButton := pressed }, p.2)

/-- The test `loggingActive && millis() - lastSample >= sampleInterval`. -/
def sampleDue (c : Config) (s : State) (i : Input) : Bool :=
  s.loggingActive && decide (elapsed i.millisTest s.lastSample ≥ c.sampleInterval)

/-- Second half of `loop`, the logging branch. -/
def loggingPhase (c : Config) (s : State) (i : Input) : State :=
  if sampleDue c s i then
    let s1 := { s with lastSample := i.millisLast }
    let f := readForce c i.raw
    let s2 := { s1 with forceData := s1.forceData ++ [f] }
    let s3 := { s2 with timeData := s2.timeData ++ [i.millisPush] }
    detectStep c f s3
  else s

/-- One run of `loop()`. -/
def loop (c : Config) (s : State) (i : Input) : Option (State × List Output) :=
  (buttonPhase s i.pressed).map fun p => (loggingPhase c p.1 i, p.2)

/-- Runs of `loop()` one after the other, collecting the outputs. -/
def runLoop (c : Config) : State → List Input → Option (State × List Output)
  | s, [] => some (s, [])
  | s, i :: rest =>
    match loop c s i with
    | none => none
    | some (s1, out1) =>
      (runLoop c s1 rest).map fun p => (p.1, out1 ++ p.2)

/-- An operation on the session state: a run of `loop` or a call of
`uploadSession`. -/
inductive Op where
  | loop (i : Input)
  | uploadSession

/-- The state after a sequence of operations; `none` when one of them reads
out of bounds. -/
def runOps (c : Config) : State → List Op → Option State
  | s, [] => some s
  | s, Op.loop i :: rest =>
    match loop c s i with
    | none => none
    | some (s1, _) => runOps c s1 rest
  | s, Op.uploadSession :: rest =>
    match uploadSession s with
    | none => none
    | some (s1, _) => runOps c s1 rest

end SmartCaneV1

namespace SmartCaneV1

/-! ### The payload and the session as the specification words them -/

/-- The strings joined by single commas: nothing before the first one and
nothing after the last one. -/
def commaSeparated : List String → String
  | [] => ""
  | [e] => e
  | e :: e' :: es => e ++ "," ++ commaSeparated (e' :: es)

/-- The payload of the specification: a JSON object whose first key is
`"steps"`, the step count, and whose second key is `"force"`, the array of
the samples in order, each one the map of `"t"`, its timestamp, and `"f"`,
its force with two decimals. -/
def sessionJSON (steps : Int) (samples : List (Nat × ℚ)) : String :=
  "\x7b \"steps\": " ++ toString steps ++ ", \"force\": [" ++
    commaSeparated (samples.map fun p => formatSample p.1 p.2) ++ "] \x7d"

/-- The session state after `uploadSession`: both buffers empty, step count
zero, no contact. -/
def resetSession (s : State) : State :=
  { s with forceData := [], timeData := [], stepCount := 0,
           aboveThreshold := false }

/-- The outputs of `uploadSession` around a given payload. -/
def uploadOutputs (payload : String) : List Output :=
  blink ++ blink ++ blink ++
    [Output.publish "session_data" payload,
     Output.publish "status" "Upload Complete"]

/-- The (timestamp, force) samples of a session: one per run of `loop` whose
interval test passes, the test being made against the time of the previous
sample (`lastSample` at first). -/
def sessionSamples (c : Config) : Nat → List Input → List (Nat × ℚ)
  | _, [] => []
  | lastSample, i :: rest =>
    if elapsed i.millisTest lastSample ≥ c.sampleInterval then
      (i.millisPush, readForce c i.raw) :: sessionSamples c i.millisLast rest
    else sessionSamples c lastSample rest

/-- The state after `detectStep` has been fed the forces one by one. -/
def detectSteps (c : Config) (s : State) (forces : List ℚ) : State :=
  forces.foldl (fun t f => detectStep c f t) s

/-- The step count accumulated over the forces of a session, which starts
with a zero step count and no contact. -/
def sessionSteps (c : Config) (forces : List ℚ) : Int :=
  (detectSteps c initState forces).stepCount

/-- No run of `loop` on these inputs sees a rising edge of the button, whose
previous level is `prev`. -/
def noRisingEdge : Bool → List Input → Bool
  | _, [] => true
  | prev, i :: rest => !(i.pressed && !prev) && noRisingEdge i.pressed rest

/-- The level of the button after these inputs, `prev` if there are none. -/
def lastPressed : Bool → List Input → Bool
  | prev, [] => prev
  | _, i :: rest => lastPressed i.pressed rest

/-! ### The examples of the specification -/

/-- A session holding the samples `(100, 3.5)` and `(200, 4.25)`, with two
steps counted. -/
def exampleSession : State :=
  { initState with forceData := [35 / 10, 425 / 100], timeData := [100, 200],
                   stepCount := 2 }

/-- The source's configuration with `zeroOffset = 0` and the threshold of the
full scenario, `5` newtons. -/
def scenarioConfig : Config :=
  { defaultConfig 0 with stepThreshold := 5 }

/-- The run of `loop` that sees the button pressed, at `1000` ms; its sample
is due, and the reading `-211.5` conditions to `3` newtons. -/
def scenarioStart : Input :=
  { pressed := true, millisTest := 1000, millisLast := 1000,
    raw := -2115 / 10, millisPush := 1000 }

/-- The runs of `loop` of the session, button released: no sample is due at
`1050` ms, the readings `-564` at `1100` ms and `-211.5` at `1200` ms
condition to `8` and `3` newtons. -/
def scenarioSession : List Input :=
  [{ pressed := false, millisTest := 1050, millisLast := 1050,
     raw := -700, millisPush := 1050 },
   { pressed := false, millisTest := 1100, millisLast := 1100,
     raw := -564, millisPush := 1100 },
   { pressed := false, millisTest := 1200, millisLast := 1200,
     raw := -2115 / 10, millisPush := 1200 }]

/-- The run of `loop` that sees the button pressed again, at `1250` ms. -/
def scenarioStop : Input :=
  { pressed := true, millisTest := 1250, millisLast := 1250,
    raw := -700, millisPush := 1250 }

end SmartCaneV1

namespace ForceDetector

/-! ### Contact detection (`forcedetector.cpp`, section 5 of `loop`) -/

theorem stepDetection_below (c : Config) (kg : ℚ) (s : State)
    (h : kg < c.thresholdKg) :
    stepDetection c kg s =
      if s.inContact then
        ({ s with inContact := false, stepCount := s.stepCount + 1,
                  stepsForCloud := s.stepCount + 1 },
          [Event.cane_stop kg, Event.cane_step (s.stepCount + 1)])
      else (s, []) := by
  have h1 : ¬ c.thresholdKg ≤ kg := not_le.mpr h
  cases hs : s.inContact <;> simp [stepDetection, hs, h1]

theorem stepDetection_above (c : Config) (kg : ℚ) (s : State)
    (h : c.thresholdKg ≤ kg) :
    stepDetection c kg s =
      if s.inContact then (s, [])
      else ({ s with inContact := true }, [Event.cane_start kg]) := by
  cases hs : s.inContact <;> simp [stepDetection, hs, h]

theorem loop_ema (c : Config) (s : State) (rawKg : ℚ) :
    (loop c s rawKg).1.ema = (smoothing c rawKg s).ema := by
  by_cases h : c.thresholdKg ≤ (smoothing c rawKg s).ema
  · simp only [loop, stepDetection_above _ _ _ h]
    cases hs : (physics c (smoothing c rawKg s).ema (smoothing c rawKg s)).inContact <;>
      simp [physics]
  · simp only [loop, stepDetection_below _ _ _ (not_le.mp h)]
    cases hs : (physics c (smoothing c rawKg s).ema (smoothing c rawKg s)).inContact <;>
      simp [physics]

theorem runLoop_append (c : Config) (s : State) (xs ys : List ℚ) :
    runLoop c s (xs ++ ys) = runLoop c (runLoop c s xs) ys := by
  induction xs generalizing s with
  | nil => rfl
  | cons x xs ih => simp [runLoop, ih]

theorem stepDetection_eq (c : Config) (kg : ℚ) (s : State) :
    stepDetection c kg s =
      if c.thresholdKg ≤ kg then
        (if s.inContact then (s, [])
         else ({ s with inContact := true }, [Event.cane_start kg]))
      else
        (if s.inContact then
          ({ s with inContact := false, stepCount := s.stepCount + 1,
                    stepsForCloud := s.stepCount + 1 },
            [Event.cane_stop kg, Event.cane_step (s.stepCount + 1)])
         else (s, [])) := by
  by_cases h : c.thresholdKg ≤ kg
  · rw [stepDetection_above _ _ _ h, if_pos h]
  · rw [stepDetection_below _ _ _ (not_le.mp h), if_neg h]

theorem physics_inContact (c : Config) (kg : ℚ) (s : State) :
    (physics c kg s).inContact = s.inContact := rfl

theorem physics_stepCount (c : Config) (kg : ℚ) (s : State) :
    (physics c kg s).stepCount = s.stepCount := rfl

theorem smoothing_inContact (c : Config) (rawKg : ℚ) (s : State) :
    (smoothing c rawKg s).inContact = s.inContact := by
  unfold smoothing; split <;> rfl

theorem smoothing_stepCount (c : Config) (rawKg : ℚ) (s : State) :
    (smoothing c rawKg s).stepCount = s.stepCount := by
  unfold smoothing; split <;> rfl

/-- C1: in `loop` of `forcedetector.cpp` the contact detector is a two-state
machine. For every smoothed value `kg` and every prior state, the new
`inContact` is `kg >= thresholdKg` (so a value equal to the threshold counts
as above); the events are exactly `cane_start` when `inContact` was false and
`kg >= thresholdKg`, exactly `cane_stop` followed by `cane_step` when
`inContact` was true and `kg < thresholdKg`, and none otherwise; `stepCount`
grows by one on `cane_stop` and is unchanged otherwise. The same holds for a
whole run of `loop`, whose smoothed value is its new `ema`. From no contact,
the signals `[0, 6, 6, 2]` at threshold `5` give the events
`[none, start, none, stop]` and one more step. -/
theorem contact_detector_two_state (c : Config) (kg rawKg : ℚ) (s : State) :
    (stepDetection c kg s).1.inContact = decide (kg ≥ c.thresholdKg)
    ∧ (stepDetection c c.thresholdKg s).1.inContact = true
    ∧ (stepDetection c kg s).2 =
        (if s.inContact = false ∧ kg ≥ c.thresholdKg then [Event.cane_start kg]
         else if s.inContact = true ∧ kg < c.thresholdKg then
           [Event.cane_stop kg, Event.cane_step (s.stepCount + 1)]
         else [])
    ∧ (Event.cane_start kg ∈ (stepDetection c kg s).2 ↔
        (s.inContact = false ∧ kg ≥ c.thresholdKg))
    ∧ (Event.cane_stop kg ∈ (stepDetection c kg s).2 ↔
        (s.inContact = true ∧ kg < c.thresholdKg))
    ∧ (stepDetection c kg s).1.stepCount =
        (if s.inContact = true ∧ kg < c.thresholdKg then s.stepCount + 1
         else s.stepCount)
    ∧ (loop c s rawKg).1.inContact = decide ((loop c s rawKg).1.ema ≥ c.thresholdKg)
    ∧ (loop c s rawKg).1.stepCount =
        (if s.inContact = true ∧ (loop c s rawKg).1.ema < c.thresholdKg then
           s.stepCount + 1
         else s.stepCount)
    ∧ (detectAll { c with thresholdKg := 5 } { s with inContact := false }
          [0, 6, 6, 2]).2 =
        [[], [Event.cane_start 6], [],
         [Event.cane_stop 2, Event.cane_step (s.stepCount + 1)]]
    ∧ (detectAll { c with thresholdKg := 5 } { s with inContact := false }
          [0, 6, 6, 2]).1.stepCount = s.stepCount + 1
    ∧ (detectAll { c with thresholdKg := 5 } { s with inContact := false }
          [0, 6, 6, 2]).1.inContact = false := by
  have key : ∀ (k : ℚ) (t : State),
      (stepDetection c k t).1.inContact = decide (k ≥ c.thresholdKg)
      ∧ (stepDetection c k t).2 =
        (if t.inContact = false ∧ k ≥ c.thresholdKg then [Event.cane_start k]
         else if t.inContact = true ∧ k < c.thresholdKg then
           [Event.cane_stop k, Event.cane_step (t.stepCount + 1)]
         else [])
      ∧ (stepDetection c k t).1.stepCount =
        (if t.inContact = true ∧ k < c.thresholdKg then t.stepCount + 1
         else t.stepCount) := by
    intro k t
    by_cases h : c.thresholdKg ≤ k
    · rw [stepDetection_above _ _ _ h]
      have h1 : ¬ k < c.thresholdKg := not_lt.mpr h
      cases ht : t.inContact <;> simp [h, h1, ht]
    · have h1 : k < c.thresholdKg := not_le.mp h
      rw [stepDetection_below _ _ _ h1]
      cases ht : t.inContact <;> simp [h, h1, ht]
  obtain ⟨k1, k2, k3⟩ := key kg s
  refine ⟨k1, ?_, k2, ?_, ?_, k3, ?_, ?_, ?_, ?_, ?_⟩
  · rw [(key c.thresholdKg s).1]; simp
  · rw [k2]
    by_cases h : c.thresholdKg ≤ kg
    · have h1 : ¬ kg < c.thresholdKg := not_lt.mpr h
      cases hs : s.inContact <;> simp [h, h1]
    · have h1 : kg < c.thresholdKg := not_le.mp h
      cases hs : s.inContact <;> simp [h, h1]
  · rw [k2]
    by_cases h : c.thresholdKg ≤ kg
    · have h1 : ¬ kg < c.thresholdKg := not_lt.mpr h
      cases hs : s.inContact <;> simp [h, h1]
    · have h1 : kg < c.thresholdKg := not_le.mp h
      cases hs : s.inContact <;> simp [h, h1]
  · have e := loop_ema c s rawKg
    rw [e]
    exact (key _ _).1
  · have e := loop_ema c s rawKg
    rw [e]
    have := (key (smoothing c rawKg s).ema
      (physics c (smoothing c rawKg s).ema (smoothing c rawKg s))).2.2
    rw [physics_inContact, physics_stepCount, smoothing_inContact,
      smoothing_stepCount] at this
    exact this
  · norm_num [detectAll, stepDetection_eq]
  · norm_num [detectAll, stepDetection_eq]
  · norm_num [detectAll, stepDetection_eq]

theorem loop_physics (c : Config) (s : State) (rawKg : ℚ) :
    (loop c s rawKg).1.pressure_kPa =
        ((loop c s rawKg).1.ema * g) / (c.sensorArea_cm2 * (1 / 10000)) / 1000
    ∧ (loop c s rawKg).1.est_contact_area_cm2 =
        c.sensorArea_cm2 + (loop c s rawKg).1.ema * (125 / 100)
    ∧ (loop c s rawKg).1.forceN = (loop c s rawKg).1.ema * g := by
  rw [loop_ema]
  simp only [loop, stepDetection_eq]
  split <;> split <;> simp [physics]

/-- C8, as stated, fails: from power-up with the source's constants, one run
of `loop` on the reading `1.02` gives the smoothed mass `1.02` and the
estimated area `5.275` cm², but `pressure_kPa` is not the force over that
area: it is the force over the fixed `sensorArea_cm2 = 4` cm². -/
theorem pressure_not_over_estimated_area :
    (loop defaultConfig initState (102 / 100)).1.ema = 102 / 100
    ∧ (loop defaultConfig initState (102 / 100)).1.est_contact_area_cm2 = 5275 / 1000
    ∧ (loop defaultConfig initState (102 / 100)).1.pressure_kPa ≠
        ((loop defaultConfig initState (102 / 100)).1.ema * g) /
          ((loop defaultConfig initState (102 / 100)).1.est_contact_area_cm2 * (1 / 10000)) /
          1000 := by
  obtain ⟨h1, h2, _⟩ := loop_physics defaultConfig initState (102 / 100)
  have e : (loop defaultConfig initState (102 / 100)).1.ema = 102 / 100 := by
    rw [loop_ema]
    norm_num [smoothing, initState, defaultConfig]
  rw [h1, h2, e]
  norm_num [g, defaultConfig]

/-- C8, amended: in `loop` of `forcedetector.cpp` the reported pressure is the
force over the fixed sensor area, in kilopascals, for every smoothed mass
`kg`: `pressure_kPa = (kg * g) / (sensorArea_cm2 * 0.0001) / 1000`; the
load-dependent estimate `est_contact_area_cm2 = sensorArea_cm2 + 1.25 * kg`
is computed and reported next to it and does not enter the pressure. -/
theorem pressure_over_sensor_area (c : Config) (kg rawKg : ℚ) (s : State) :
    (physics c kg s).pressure_kPa =
        (kg * g) / (c.sensorArea_cm2 * (1 / 10000)) / 1000
    ∧ (physics c kg s).pressureForCloud = (physics c kg s).pressure_kPa
    ∧ (physics c kg s).est_contact_area_cm2 = c.sensorArea_cm2 + (125 / 100) * kg
    ∧ (physics c kg s).areaForCloud = (physics c kg s).est_contact_area_cm2
    ∧ (loop c s rawKg).1.pressure_kPa =
        ((loop c s rawKg).1.ema * g) / (c.sensorArea_cm2 * (1 / 10000)) / 1000
    ∧ (loop c s rawKg).1.est_contact_area_cm2 =
        c.sensorArea_cm2 + (125 / 100) * (loop c s rawKg).1.ema
    ∧ (physics { c with sensorArea_cm2 := 4 } (102 / 100) s).est_contact_area_cm2
        = 5275 / 1000 := by
  obtain ⟨h1, h2, _⟩ := loop_physics c s rawKg
  refine ⟨rfl, rfl, ?_, rfl, h1, ?_, ?_⟩
  · simp only [physics]; ring
  · rw [h2]; ring
  · norm_num [physics]

theorem smoothed_snoc (c : Config) (xs : List ℚ) (x : ℚ) :
    smoothed c (xs ++ [x]) =
      if smoothed c xs = 0 then x
      else c.alpha * x + (1 - c.alpha) * smoothed c xs := by
  unfold smoothed
  rw [runLoop_append]
  simp only [runLoop, loop_ema]
  unfold smoothing
  split
  · simp only []; ring
  · rfl

/-- C9, the defect of the code: the smoothing step of `forcedetector.cpp`
means to seed the smoothed value from the first sample only, and uses the
value `0` of `ema` as its mark of "no sample yet". With the source's constants
and the readings `0, 1` from power-up, the smoothed value after the first
sample is `0`, so the second sample seeds again: the smoothed value after it
is `1`, where blending gives `alpha * 1 + (1 - alpha) * 0 = 0.15`. That run of
`loop` publishes `cane_start`, which the blended value, below
`thresholdKg = 0.5`, would not. -/
theorem second_sample_reseeds :
    smoothed defaultConfig [0] = 0
    ∧ smoothed defaultConfig [0, 1] = 1
    ∧ defaultConfig.alpha * 1 + (1 - defaultConfig.alpha) * smoothed defaultConfig [0]
        = 15 / 100
    ∧ smoothed defaultConfig [0, 1] ≠
        defaultConfig.alpha * 1 + (1 - defaultConfig.alpha) * smoothed defaultConfig [0]
    ∧ (loop defaultConfig (runLoop defaultConfig initState [0]) 1).2 =
        [Event.cane_start 1]
    ∧ ¬ (defaultConfig.thresholdKg ≤
        defaultConfig.alpha * 1 + (1 - defaultConfig.alpha) * smoothed defaultConfig [0]) := by
  have h0 : smoothed defaultConfig [0] = 0 := by
    have := smoothed_snoc defaultConfig [] 0
    simpa [smoothed, runLoop, initState] using this
  have h1 : smoothed defaultConfig [0, 1] = 1 := by
    have := smoothed_snoc defaultConfig [0] 1
    rw [h0] at this
    simpa using this
  refine ⟨h0, h1, ?_, ?_, ?_, ?_⟩
  · rw [h0]; norm_num [defaultConfig]
  · rw [h1, h0]; norm_num [defaultConfig]
  · with_unfolding_all decide
  · rw [h0]; norm_num [defaultConfig]

end ForceDetector

namespace SmartCaneV1

/-! ### Step detection and force conditioning (`SmartCaneV1.cpp`) -/

theorem detectStep_eq (c : Config) (force : ℚ) (s : State) :
    detectStep c force s =
      if c.stepThreshold < force then
        (if s.aboveThreshold then s
         else { s with stepCount := s.stepCount + 1, aboveThreshold := true })
      else if force < c.stepThreshold then { s with aboveThreshold := false }
      else s := by
  unfold detectStep
  by_cases h1 : c.stepThreshold < force
  · have h2 : ¬ force < c.stepThreshold := not_lt.mpr (le_of_lt h1)
    cases hs : s.aboveThreshold <;> simp [h1, h2, hs]
  · by_cases h2 : force < c.stepThreshold
    · cases hs : s.aboveThreshold <;> simp [h1, h2, hs]
    · cases hs : s.aboveThreshold <;> simp [h1, h2, hs]

/-- C2, as stated, fails: with the source's `stepThreshold = 10`, a release
(`aboveThreshold` true, force `5`) leaves `stepCount` at `0`, and a contact
start (`aboveThreshold` false, force `15`) moves it from `0` to `1`. -/
theorem detectStep_counts_on_start_not_end :
    (detectStep (defaultConfig 0) 5
        { initState with aboveThreshold := true }).stepCount = 0
    ∧ (detectStep (defaultConfig 0) 15 initState).stepCount = 1 := by
  constructor <;> norm_num [detectStep_eq, defaultConfig, initState]

/-- C2, amended: in the session firmware `detectStep` counts on the rising
edge. It increments the step counter by exactly one on a contact start
(`aboveThreshold` was false and the force is above `stepThreshold`) and a
contact end (`aboveThreshold` was true and the force is below
`stepThreshold`) does not change the counter: for every force and every prior
state, `stepCount` afterwards is `stepCount + 1` if the call is a contact
start and `stepCount` otherwise. -/
theorem detectStep_counts_contact_start (c : Config) (force : ℚ) (s : State) :
    (detectStep c force s).stepCount =
      (if s.aboveThreshold = false ∧ force > c.stepThreshold then s.stepCount + 1
       else s.stepCount) := by
  rw [detectStep_eq]
  by_cases h1 : c.stepThreshold < force
  · cases hs : s.aboveThreshold <;> simp [h1, hs]
  · by_cases h2 : force < c.stepThreshold
    · cases hs : s.aboveThreshold <;> simp [h1, h2, hs]
    · cases hs : s.aboveThreshold <;> simp [h1, h2, hs]

/-- C3, as stated, fails: with the source's `stepThreshold = 10`, the call
`detectStep(10)` with `aboveThreshold = false` leaves `aboveThreshold` false,
while the force `11` sets it. -/
theorem detectStep_at_threshold_stays_below :
    (detectStep (defaultConfig 0) (defaultConfig 0).stepThreshold
        { initState with aboveThreshold := false }).aboveThreshold = false
    ∧ (detectStep (defaultConfig 0) 11
        { initState with aboveThreshold := false }).aboveThreshold = true := by
  constructor <;> norm_num [detectStep_eq, defaultConfig, initState]

/-- C3, amended: in `detectStep` a force exactly equal to `stepThreshold` is
neither above nor below: it leaves `aboveThreshold` as it was (false stays
false, true stays true), and leaves the step count alone. Any force greater
than the threshold leaves `aboveThreshold = true` and any force below it
leaves `aboveThreshold = false`. -/
theorem detectStep_threshold_boundary (c : Config) (force : ℚ) (s : State) :
    (detectStep c c.stepThreshold s).aboveThreshold = s.aboveThreshold
    ∧ (detectStep c c.stepThreshold s).stepCount = s.stepCount
    ∧ (detectStep c force s).aboveThreshold =
        (if force > c.stepThreshold then true
         else if force < c.stepThreshold then false
         else s.aboveThreshold) := by
  refine ⟨?_, ?_, ?_⟩
  · simp [detectStep_eq]
  · simp [detectStep_eq]
  · rw [detectStep_eq]
    by_cases h1 : c.stepThreshold < force
    · cases hs : s.aboveThreshold <;> simp [h1, hs]
    · by_cases h2 : force < c.stepThreshold
      · simp [h1, h2]
      · simp [h1, h2]

theorem readForce_default (zeroOffset raw : ℚ) :
    readForce (defaultConfig zeroOffset) raw =
      if raw ≥ zeroOffset then 0 else (zeroOffset - raw) * 100 / 7050 := by
  unfold readForce defaultConfig
  simp only []
  by_cases h : raw ≥ zeroOffset
  · rw [if_pos h]
    have : (raw - zeroOffset) * (1 / (-7050)) * 100 ≤ 0 := by
      have : 0 ≤ raw - zeroOffset := sub_nonneg.mpr h
      nlinarith
    rcases lt_or_eq_of_le this with h1 | h1
    · rw [if_pos h1]
    · rw [if_neg (by rw [h1]; exact lt_irrefl _), h1]
  · rw [if_neg h]
    have h' : raw < zeroOffset := not_le.mp h
    have : ¬ (raw - zeroOffset) * (1 / (-7050)) * 100 < 0 := by
      have : raw - zeroOffset < 0 := sub_neg.mpr h'
      rw [not_lt]
      nlinarith
    rw [if_neg this]
    ring

/-- C4, as stated, fails: with `calibrationFactor = -7050` and
`zeroOffset = 0`, the reading `-7050`, which is below `zeroOffset`, gives the
force `100`, not `0`. -/
theorem readForce_below_zeroOffset_is_positive :
    (-7050 : ℚ) < (defaultConfig 0).zeroOffset
    ∧ readForce (defaultConfig 0) (-7050) = 100 := by
  constructor
  · norm_num [defaultConfig]
  · rw [readForce_default]; norm_num

/-- C4, amended: for `readForce` with the configured `calibrationFactor`
(`-7050`) and any `zeroOffset`, over exact arithmetic, the returned force is
`>= 0` for every raw reading; for every raw reading `raw >= zeroOffset` it is
exactly `0`, and for every raw reading `raw < zeroOffset` it is
`(zeroOffset - raw) * 100 / 7050`, which is positive. -/
theorem readForce_sign (zeroOffset raw : ℚ) :
    0 ≤ readForce (defaultConfig zeroOffset) raw
    ∧ readForce (defaultConfig zeroOffset) raw =
        (if raw ≥ zeroOffset then 0 else (zeroOffset - raw) * 100 / 7050)
    ∧ (if raw < zeroOffset then 0 < readForce (defaultConfig zeroOffset) raw
       else readForce (defaultConfig zeroOffset) raw = 0) := by
  have e := readForce_default zeroOffset raw
  by_cases h : raw ≥ zeroOffset
  · rw [if_pos h] at e
    refine ⟨by rw [e], by rw [e, if_pos h], ?_⟩
    rw [if_neg (not_lt.mpr h)]; exact e
  · rw [if_neg h] at e
    have h' : raw < zeroOffset := not_le.mp h
    have pos : 0 < (zeroOffset - raw) * 100 / 7050 := by
      have : 0 < zeroOffset - raw := sub_pos.mpr h'
      positivity
    refine ⟨by rw [e]; exact le_of_lt pos, by rw [e, if_neg h], ?_⟩
    rw [if_pos h', e]; exact pos

/-! ### The payload (`buildJSON`) -/

theorem commaSeparated_snoc (l : List String) (e : String) :
    commaSeparated (l ++ [e]) =
      if l = [] then e else commaSeparated l ++ "," ++ e := by
  induction l with
  | nil => rfl
  | cons a l ih =>
    cases l with
    | nil => simp [commaSeparated]
    | cons b l' =>
      have ih' : commaSeparated (b :: l' ++ [e]) =
          commaSeparated (b :: l') ++ "," ++ e := by
        rw [ih]; simp
      show commaSeparated (a :: b :: (l' ++ [e])) = _
      rw [commaSeparated]
      have : b :: (l' ++ [e]) = b :: l' ++ [e] := rfl
      rw [this, ih']
      simp [commaSeparated, String.append_assoc]

theorem buildJSONBody_eq (s : State) (json : String) (i : Nat)
    (hf : i < s.forceData.length) (ht : i < s.timeData.length) :
    buildJSONBody s json i =
      some (json ++ formatSample (s.timeData.get ⟨i, ht⟩) (s.forceData.get ⟨i, hf⟩) ++
        (if i + 1 < s.forceData.length then "," else "")) := by
  unfold buildJSONBody
  rw [List.getElem?_eq_getElem ht, List.getElem?_eq_getElem hf]
  have hs : sizeMinusOne s.forceData.length = s.forceData.length - 1 := by
    unfold sizeMinusOne
    rw [if_neg (by omega)]
  simp only [hs, List.get_eq_getElem]
  by_cases h : i + 1 < s.forceData.length
  · rw [if_pos (by omega), if_pos h]
  · rw [if_neg (by omega), if_neg h, String.append_empty]

theorem buildJSON_loop (s : State) (json : String)
    (h : s.forceData.length ≤ s.timeData.length) :
    ∀ k, k ≤ s.forceData.length →
      (List.range k).foldlM (buildJSONBody s) json =
        some (json ++
          commaSeparated (((s.timeData.zip s.forceData).take k).map
            fun p => formatSample p.1 p.2) ++
          (if 0 < k ∧ k < s.forceData.length then "," else "")) := by
  intro k
  induction k with
  | zero => intro _; simp [commaSeparated]
  | succ k ih =>
    intro hk
    have hf : k < s.forceData.length := by omega
    have ht : k < s.timeData.length := by omega
    rw [List.range_succ, List.foldlM_append, ih (by omega)]
    simp only [Option.bind_eq_bind, Option.some_bind, List.foldlM_cons,
      List.foldlM_nil, Option.pure_def, Option.bind_some]
    rw [buildJSONBody_eq s _ k hf ht]
    have hz : k < (s.timeData.zip s.forceData).length := by
      rw [List.length_zip]; omega
    have htake : (s.timeData.zip s.forceData).take (k + 1) =
        (s.timeData.zip s.forceData).take k ++
          [(s.timeData.get ⟨k, ht⟩, s.forceData.get ⟨k, hf⟩)] := by
      rw [List.take_succ, List.getElem?_eq_getElem hz]
      simp
    rw [htake, List.map_append, List.map_singleton, commaSeparated_snoc]
    congr 1
    by_cases h0 : k = 0
    · subst h0
      simp [commaSeparated]
    · have hne : ¬ (List.map (fun p : Nat × ℚ => formatSample p.1 p.2)
          (List.take k (s.timeData.zip s.forceData)) = []) := by
        intro hnil
        have := congrArg List.length hnil
        simp only [List.length_map, List.length_take, List.length_zip,
          List.length_nil] at this
        omega
      rw [if_neg hne, if_pos ⟨by omega, hf⟩]
      simp [String.append_assoc]

theorem buildJSON_eq (s : State) (h : s.forceData.length ≤ s.timeData.length) :
    buildJSON s = some (sessionJSON s.stepCount (s.timeData.zip s.forceData)) := by
  unfold buildJSON sessionJSON
  simp only []
  rw [buildJSON_loop s _ h _ (le_refl _)]
  have : (s.timeData.zip s.forceData).take s.forceData.length =
      s.timeData.zip s.forceData := by
    apply List.take_of_length_le
    rw [List.length_zip]; omega
  rw [this]
  simp [String.append_assoc]

/-! ### The session (`uploadSession`, `loop`) -/

theorem uploadSession_eq (s : State) (h : s.forceData.length ≤ s.timeData.length) :
    uploadSession s =
      some (resetSession s,
        uploadOutputs (sessionJSON s.stepCount (s.timeData.zip s.forceData))) := by
  unfold uploadSession
  rw [buildJSON_eq s h]
  rfl

theorem detectStep_fields (c : Config) (f : ℚ) (s : State) :
    (detectStep c f s).forceData = s.forceData
    ∧ (detectStep c f s).timeData = s.timeData
    ∧ (detectStep c f s).loggingActive = s.loggingActive
    ∧ (detectStep c f s).prevButton = s.prevButton
    ∧ (detectStep c f s).lastSample = s.lastSample := by
  rw [detectStep_eq]
  split
  · split <;> simp
  · split <;> simp

theorem detectStep_congr (c : Config) (f : ℚ) (s t : State)
    (h1 : s.stepCount = t.stepCount) (h2 : s.aboveThreshold = t.aboveThreshold) :
    (detectStep c f s).stepCount = (detectStep c f t).stepCount
    ∧ (detectStep c f s).aboveThreshold = (detectStep c f t).aboveThreshold := by
  rw [detectStep_eq, detectStep_eq]
  cases hs : s.aboveThreshold
  · have ht : t.aboveThreshold = false := by rw [← h2]; exact hs
    rw [ht]
    split
    · simp [h1]
    · split <;> simp [h1, hs, ht]
  · have ht : t.aboveThreshold = true := by rw [← h2]; exact hs
    rw [ht]
    split
    · simp [h1, hs, ht]
    · split <;> simp [h1, hs, ht]

theorem detectSteps_cons (c : Config) (s : State) (f : ℚ) (fs : List ℚ) :
    detectSteps c s (f :: fs) = detectSteps c (detectStep c f s) fs := rfl

theorem detectSteps_congr (c : Config) (fs : List ℚ) :
    ∀ s t : State, s.stepCount = t.stepCount →
      s.aboveThreshold = t.aboveThreshold →
      (detectSteps c s fs).stepCount = (detectSteps c t fs).stepCount
      ∧ (detectSteps c s fs).aboveThreshold = (detectSteps c t fs).aboveThreshold := by
  induction fs with
  | nil => intro s t h1 h2; exact ⟨h1, h2⟩
  | cons f fs ih =>
    intro s t h1 h2
    obtain ⟨e1, e2⟩ := detectStep_congr c f s t h1 h2
    exact ih _ _ e1 e2

theorem loop_no_edge (c : Config) (s : State) (i : Input)
    (h : (i.pressed && !s.prevButton) = false) :
    loop c s i = some (loggingPhase c { s with prevButton := i.pressed } i, []) := by
  unfold loop buttonPhase
  simp [h]

theorem loop_start (c : Config) (s : State) (i : Input)
    (hidle : s.loggingActive = false) (hprev : s.prevButton = false)
    (hp : i.pressed = true) :
    loop c s i =
      some (loggingPhase c
        { s with loggingActive := true, forceData := [], timeData := [],
                 stepCount := 0, aboveThreshold := false, prevButton := true } i,
        [Output.digitalWrite true, Output.publish "status" "Logging Started"]) := by
  unfold loop buttonPhase
  simp [hidle, hprev, hp]

theorem loop_stop (c : Config) (s : State) (i : Input)
    (hlog : s.loggingActive = true) (hprev : s.prevButton = false)
    (hp : i.pressed = true) (h : s.forceData.length ≤ s.timeData.length) :
    loop c s i =
      some ({ resetSession s with loggingActive := false, prevButton := true },
        [Output.digitalWrite false, Output.publish "status" "Logging Stopped"] ++
          uploadOutputs (sessionJSON s.stepCount (s.timeData.zip s.forceData))) := by
  obtain ⟨a, fd, td, sc, la, pb, ls⟩ := s
  simp only at hlog hprev h
  subst hlog hprev
  have hu := uploadSession_eq
    { aboveThreshold := a, forceData := fd, timeData := td, stepCount := sc,
      loggingActive := false, prevButton := false, lastSample := ls } h
  unfold loop buttonPhase
  simp only [hp, Bool.not_false, Bool.and_true, Bool.not_true, if_true]
  simp only [hu]
  simp [loggingPhase, sampleDue, resetSession]

theorem runLoop_snoc (c : Config) (ins : List Input) (i : Input) :
    ∀ s, runLoop c s (ins ++ [i]) =
      match runLoop c s ins with
      | none => none
      | some (s1, out1) =>
        (loop c s1 i).map fun p => (p.1, out1 ++ p.2) := by
  induction ins with
  | nil =>
    intro s
    simp only [List.nil_append, runLoop]
    cases hl : loop c s i with
    | none => rfl
    | some p => simp
  | cons j ins ih =>
    intro s
    rw [List.cons_append, runLoop, runLoop]
    cases hl : loop c s j with
    | none => rfl
    | some p =>
      obtain ⟨s1, out1⟩ := p
      simp only []
      rw [ih s1]
      cases hr : runLoop c s1 ins with
      | none => rfl
      | some q =>
        obtain ⟨s2, out2⟩ := q
        simp only [Option.map_some']
        cases hl2 : loop c s2 i with
        | none => rfl
        | some r => simp [List.append_assoc]

theorem runLoop_logging (c : Config) (ins : List Input) :
    ∀ s : State, s.loggingActive = true →
      noRisingEdge s.prevButton ins = true →
      ∃ s1, runLoop c s ins = some (s1, [])
        ∧ s1.loggingActive = true
        ∧ s1.prevButton = lastPressed s.prevButton ins
        ∧ s1.forceData =
            s.forceData ++ (sessionSamples c s.lastSample ins).map Prod.snd
        ∧ s1.timeData =
            s.timeData ++ (sessionSamples c s.lastSample ins).map Prod.fst
        ∧ s1.stepCount =
            (detectSteps c s ((sessionSamples c s.lastSample ins).map Prod.snd)).stepCount
        ∧ s1.aboveThreshold =
            (detectSteps c s
              ((sessionSamples c s.lastSample ins).map Prod.snd)).aboveThreshold := by
  induction ins with
  | nil =>
    intro s hlog _
    exact ⟨s, rfl, hlog, rfl, by simp [sessionSamples], by simp [sessionSamples],
      rfl, rfl⟩
  | cons i ins ih =>
    intro s hlog hedge
    simp only [noRisingEdge, Bool.and_eq_true, Bool.not_eq_true'] at hedge
    obtain ⟨he1, he2⟩ := hedge
    rw [runLoop, loop_no_edge c s i he1]
    simp only []
    by_cases hdue : elapsed i.millisTest s.lastSample ≥ c.sampleInterval
    · have hs : sampleDue c { s with prevButton := i.pressed } i = true := by
        simp [sampleDue, hlog, hdue]
      obtain ⟨f1, f2, f3, f4, f5⟩ := detectStep_fields c (readForce c i.raw)
        { s with prevButton := i.pressed, lastSample := i.millisLast,
                 forceData := s.forceData ++ [readForce c i.raw],
                 timeData := s.timeData ++ [i.millisPush] }
      have hphase : loggingPhase c { s with prevButton := i.pressed } i =
          detectStep c (readForce c i.raw)
            { s with prevButton := i.pressed, lastSample := i.millisLast,
                     forceData := s.forceData ++ [readForce c i.raw],
                     timeData := s.timeData ++ [i.millisPush] } := by
        unfold loggingPhase
        rw [if_pos hs]
      rw [hphase]
      have hc := detectStep_congr c (readForce c i.raw)
        { s with prevButton := i.pressed, lastSample := i.millisLast,
                 forceData := s.forceData ++ [readForce c i.raw],
                 timeData := s.timeData ++ [i.millisPush] } s rfl rfl
      obtain ⟨s1, r1, r2, r3, r4, r5, r6, r7⟩ := ih _ (by rw [f3]; exact hlog)
        (by rw [f4]; exact he2)
      refine ⟨s1, by rw [r1]; rfl, r2, ?_, ?_, ?_, ?_, ?_⟩
      · rw [r3, f4]; rfl
      · rw [r4, f1, f5]; simp [sessionSamples, hdue]
      · rw [r5, f2, f5]; simp [sessionSamples, hdue]
      · rw [r6, f5]
        simp only [sessionSamples, if_pos hdue, List.map_cons, detectSteps_cons]
        exact (detectSteps_congr c _ _ _ hc.1 hc.2).1
      · rw [r7, f5]
        simp only [sessionSamples, if_pos hdue, List.map_cons, detectSteps_cons]
        exact (detectSteps_congr c _ _ _ hc.1 hc.2).2
    · have hs : sampleDue c { s with prevButton := i.pressed } i = false := by
        simp [sampleDue, hlog]
        exact not_le.mp hdue
      have hphase : loggingPhase c { s with prevButton := i.pressed } i =
          { s with prevButton := i.pressed } := by
        unfold loggingPhase
        rw [hs]; rfl
      rw [hphase]
      obtain ⟨s1, r1, r2, r3, r4, r5, r6, r7⟩ :=
        ih { s with prevButton := i.pressed } hlog he2
      refine ⟨s1, by rw [r1]; rfl, r2, ?_, ?_, ?_, ?_, ?_⟩
      · rw [r3]; rfl
      · rw [r4]; simp [sessionSamples, hdue]
      · rw [r5]; simp [sessionSamples, hdue]
      · rw [r6]
        simp only [sessionSamples, if_neg hdue]
        exact (detectSteps_congr c _ { s with prevButton := i.pressed } s rfl rfl).1
      · rw [r7]
        simp only [sessionSamples, if_neg hdue]
        exact (detectSteps_congr c _ { s with prevButton := i.pressed } s rfl rfl).2

theorem loggingPhase_lengths (c : Config) (s : State) (i : Input)
    (h : s.forceData.length = s.timeData.length) :
    (loggingPhase c s i).forceData.length = (loggingPhase c s i).timeData.length := by
  unfold loggingPhase
  split
  · obtain ⟨f1, f2, _⟩ := detectStep_fields c (readForce c i.raw)
      { s with lastSample := i.millisLast,
               forceData := s.forceData ++ [readForce c i.raw],
               timeData := s.timeData ++ [i.millisPush] }
    simp only [] at f1 f2 ⊢
    rw [f1, f2, List.length_append, List.length_append, h]
    rfl
  · exact h

theorem buttonPhase_lengths (s : State) (pressed : Bool)
    (h : s.forceData.length = s.timeData.length) :
    ∃ s1 out, buttonPhase s pressed = some (s1, out)
      ∧ s1.forceData.length = s1.timeData.length := by
  by_cases hedge : (pressed && !s.prevButton) = true
  · cases hlog : s.loggingActive
    · refine ⟨{ s with loggingActive := true, forceData := [], timeData := [],
                       stepCount := 0, aboveThreshold := false,
                       prevButton := pressed },
        [Output.digitalWrite true, Output.publish "status" "Logging Started"],
        ?_, rfl⟩
      unfold buttonPhase
      simp only [hedge, hlog, Bool.not_false, if_true, Option.map_some']
    · have hu := uploadSession_eq { s with loggingActive := !s.loggingActive }
        (le_of_eq h)
      refine ⟨{ resetSession { s with loggingActive := !s.loggingActive } with
                  prevButton := pressed },
        [Output.digitalWrite false, Output.publish "status" "Logging Stopped"] ++
          uploadOutputs (sessionJSON s.stepCount (s.timeData.zip s.forceData)),
        ?_, rfl⟩
      unfold buttonPhase
      simp only [hedge, if_true, hu]
      simp only [hlog, Bool.not_true, Bool.false_eq_true, if_false,
        Option.map_some']
  · refine ⟨{ s with prevButton := pressed }, [], ?_, h⟩
    unfold buttonPhase
    simp [hedge]

theorem loop_lengths (c : Config) (s : State) (i : Input)
    (h : s.forceData.length = s.timeData.length) :
    ∃ s1 out, loop c s i = some (s1, out)
      ∧ s1.forceData.length = s1.timeData.length := by
  obtain ⟨s1, out, e, hl⟩ := buttonPhase_lengths s i.pressed h
  refine ⟨loggingPhase c s1 i, out, ?_, loggingPhase_lengths c s1 i hl⟩
  unfold loop
  rw [e]
  rfl

theorem runOps_lengths (c : Config) (ops : List Op) :
    ∀ s : State, s.forceData.length = s.timeData.length →
      ∃ s1, runOps c s ops = some s1
        ∧ s1.forceData.length = s1.timeData.length := by
  induction ops with
  | nil => intro s h; exact ⟨s, rfl, h⟩
  | cons op ops ih =>
    intro s h
    cases op with
    | loop i =>
      obtain ⟨s1, out, e, hl⟩ := loop_lengths c s i h
      obtain ⟨s2, e2, hl2⟩ := ih s1 hl
      exact ⟨s2, by rw [runOps, e]; exact e2, hl2⟩
    | uploadSession =>
      have e := uploadSession_eq s (le_of_eq h)
      obtain ⟨s2, e2, hl2⟩ := ih (resetSession s) rfl
      exact ⟨s2, by rw [runOps, e]; exact e2, hl2⟩

/-! ### The claims on the payload and the session -/

/-- C6: `buildJSON` serializes the session as a JSON object whose first key is
`"steps"`, the integer `stepCount`, and whose second key is `"force"`, an
array with exactly one element per buffered sample, in insertion order,
element `i` being the map of `"t"`, `timeData[i]`, and `"f"`, `forceData[i]`
with two decimals, the elements separated by single commas with no leading or
trailing comma (this is `sessionJSON`); for an empty buffer the force array
is empty, not an error. It holds whenever every `timeData[i]` read is in
bounds. -/
theorem buildJSON_is_sessionJSON (s : State)
    (h : s.forceData.length ≤ s.timeData.length) :
    buildJSON s = some (sessionJSON s.stepCount (s.timeData.zip s.forceData))
    ∧ (s.timeData.zip s.forceData).length = s.forceData.length
    ∧ (∀ (i : Nat) (hf : i < s.forceData.length) (ht : i < s.timeData.length),
        (s.timeData.zip s.forceData)[i]? =
          some (s.timeData.get ⟨i, ht⟩, s.forceData.get ⟨i, hf⟩))
    ∧ buildJSON { s with forceData := [] } =
        some ("\x7b \"steps\": " ++ toString s.stepCount ++ ", \"force\": [] \x7d") := by
  refine ⟨buildJSON_eq s h, ?_, ?_, ?_⟩
  · rw [List.length_zip]; omega
  · intro i hf ht
    rw [List.getElem?_eq_getElem (by rw [List.length_zip]; omega)]
    simp
  · rw [buildJSON_eq { s with forceData := [] } (Nat.zero_le _)]
    simp [sessionJSON, commaSeparated, String.append_assoc]

/-- C6 at the session with the samples `(100, 3.5)` and `(200, 4.25)` and two
steps: the payload, character by character. -/
theorem buildJSON_is_sessionJSON_witness :
    exampleSession.forceData.length ≤ exampleSession.timeData.length
    ∧ sessionJSON exampleSession.stepCount
        (exampleSession.timeData.zip exampleSession.forceData) =
      "\x7b \"steps\": 2, \"force\": [\x7b\"t\":100,\"f\":3.50\x7d,\x7b\"t\":200,\"f\":4.25\x7d] \x7d"
    ∧ buildJSON exampleSession =
        some (sessionJSON exampleSession.stepCount
          (exampleSession.timeData.zip exampleSession.forceData)) :=
  ⟨by decide, by with_unfolding_all decide,
    (buildJSON_is_sessionJSON exampleSession (by decide)).1⟩

/-- C5: `uploadSession` publishes a payload built from the state before the
reset and then resets everything together. For every session state whose
buffer reads are in bounds, the `session_data` payload is `buildJSON` of that
state (its step count and all its samples), and after `uploadSession`
returns `forceData` and `timeData` are empty, `stepCount` is `0` and
`aboveThreshold` is false; a second `uploadSession` right afterwards
publishes the payload with steps `0` and an empty force sequence. -/
theorem uploadSession_drains_and_resets (s : State)
    (h : s.forceData.length ≤ s.timeData.length) :
    ∃ (payload : String) (s1 : State),
      buildJSON s = some payload
      ∧ payload = sessionJSON s.stepCount (s.timeData.zip s.forceData)
      ∧ uploadSession s =
          some (s1, blink ++ blink ++ blink ++
            [Output.publish "session_data" payload,
             Output.publish "status" "Upload Complete"])
      ∧ s1.forceData = [] ∧ s1.timeData = [] ∧ s1.stepCount = 0
      ∧ s1.aboveThreshold = false
      ∧ s1.loggingActive = s.loggingActive ∧ s1.prevButton = s.prevButton
      ∧ s1.lastSample = s.lastSample
      ∧ uploadSession s1 =
          some (s1, blink ++ blink ++ blink ++
            [Output.publish "session_data" "\x7b \"steps\": 0, \"force\": [] \x7d",
             Output.publish "status" "Upload Complete"]) := by
  refine ⟨_, resetSession s, buildJSON_eq s h, rfl, uploadSession_eq s h,
    rfl, rfl, rfl, rfl, rfl, rfl, rfl, ?_⟩
  rw [uploadSession_eq (resetSession s) (Nat.zero_le _)]
  rfl

/-- C5 at the session with the samples `(100, 3.5)` and `(200, 4.25)` and two
steps: the first upload publishes them, the state is reset, the second upload
publishes the empty session. -/
theorem uploadSession_drains_and_resets_witness :
    exampleSession.forceData.length ≤ exampleSession.timeData.length
    ∧ uploadSession exampleSession =
        some (resetSession exampleSession,
          uploadOutputs
            "\x7b \"steps\": 2, \"force\": [\x7b\"t\":100,\"f\":3.50\x7d,\x7b\"t\":200,\"f\":4.25\x7d] \x7d")
    ∧ uploadSession (resetSession exampleSession) =
        some (resetSession exampleSession,
          uploadOutputs "\x7b \"steps\": 0, \"force\": [] \x7d") := by
  obtain ⟨payload, s1, _, hp, hu, h1, h2, h3, h4, h5, h6, h7, hu2⟩ :=
    uploadSession_drains_and_resets exampleSession (by decide)
  have hs1 : s1 = resetSession exampleSession := by
    obtain ⟨a, fd, td, sc, la, pb, ls⟩ := s1
    simp only at h1 h2 h3 h4 h5 h6 h7
    subst h1 h2 h3 h4 h5 h6 h7
    rfl
  have hpay : payload =
      "\x7b \"steps\": 2, \"force\": [\x7b\"t\":100,\"f\":3.50\x7d,\x7b\"t\":200,\"f\":4.25\x7d] \x7d" := by
    rw [hp]
    with_unfolding_all decide
  subst hs1 hpay
  exact ⟨by decide, hu, hu2⟩

/-- C10: in `SmartCaneV1.cpp` the parallel buffers `forceData` and `timeData`
have the same length in every state reached from the initial state through
runs of `loop` and calls of `uploadSession`; every such run and call returns
(no buffer read is out of bounds), so each `timeData[i]` read in `buildJSON`
for `i < forceData.size()` is in bounds and `buildJSON` returns a payload. -/
theorem buffers_have_same_length (c : Config) (ops : List Op) :
    ∃ s : State, runOps c initState ops = some s
      ∧ s.forceData.length = s.timeData.length
      ∧ (∀ i : Nat, i < s.forceData.length →
          ∃ t : Nat, s.timeData[i]? = some t)
      ∧ ∃ json : String, buildJSON s = some json := by
  obtain ⟨s, e, hl⟩ := runOps_lengths c ops initState rfl
  refine ⟨s, e, hl, ?_, _, buildJSON_eq s (le_of_eq hl)⟩
  intro i hi
  exact ⟨s.timeData.get ⟨i, by omega⟩, List.getElem?_eq_getElem (by omega)⟩

theorem loop_sample (c : Config) (s : State) (i : Input)
    (hedge : (i.pressed && !s.prevButton) = false) :
    ∃ s1, loop c s i = some (s1, [])
      ∧ s1.loggingActive = s.loggingActive
      ∧ s1.forceData =
          (if sampleDue c s i then s.forceData ++ [readForce c i.raw]
           else s.forceData)
      ∧ s1.timeData =
          (if sampleDue c s i then s.timeData ++ [i.millisPush] else s.timeData)
      ∧ s1.stepCount =
          (if sampleDue c s i then (detectStep c (readForce c i.raw) s).stepCount
           else s.stepCount)
      ∧ s1.aboveThreshold =
          (if sampleDue c s i then
             (detectStep c (readForce c i.raw) s).aboveThreshold
           else s.aboveThreshold) := by
  refine ⟨_, loop_no_edge c s i hedge, ?_⟩
  have hd : sampleDue c { s with prevButton := i.pressed } i = sampleDue c s i := rfl
  unfold loggingPhase
  rw [hd]
  cases hdue : sampleDue c s i
  · simp
  · obtain ⟨f1, f2, f3, _, _⟩ := detectStep_fields c (readForce c i.raw)
      { s with prevButton := i.pressed, lastSample := i.millisLast,
               forceData := s.forceData ++ [readForce c i.raw],
               timeData := s.timeData ++ [i.millisPush] }
    have hc := detectStep_congr c (readForce c i.raw)
      { s with prevButton := i.pressed, lastSample := i.millisLast,
               forceData := s.forceData ++ [readForce c i.raw],
               timeData := s.timeData ++ [i.millisPush] } s rfl rfl
    simp only [if_true]
    exact ⟨f3, f1, f2, hc.1, hc.2⟩

theorem session_run (c : Config) (s0 : State) (e1 e2 : Input) (mid : List Input)
    (hidle : s0.loggingActive = false) (hprev : s0.prevButton = false)
    (h1 : e1.pressed = true) (hmid : noRisingEdge true mid = true)
    (hlast : lastPressed true mid = false) (h2 : e2.pressed = true) :
    ∃ sEnd : State,
      runLoop c s0 (e1 :: mid ++ [e2]) =
        some (sEnd,
          [Output.digitalWrite true, Output.publish "status" "Logging Started",
           Output.digitalWrite false, Output.publish "status" "Logging Stopped"] ++
          blink ++ blink ++ blink ++
          [Output.publish "session_data"
             (sessionJSON
               (sessionSteps c
                 ((sessionSamples c s0.lastSample (e1 :: mid)).map Prod.snd))
               (sessionSamples c s0.lastSample (e1 :: mid))),
           Output.publish "status" "Upload Complete"])
      ∧ sEnd.loggingActive = false ∧ sEnd.forceData = [] ∧ sEnd.timeData = []
      ∧ sEnd.stepCount = 0 ∧ sEnd.aboveThreshold = false := by
  let sA : State :=
    { s0 with loggingActive := true, forceData := [], timeData := [],
              stepCount := 0, aboveThreshold := false, prevButton := true }
  obtain ⟨sM, r1, r2, r3, r4, r5, r6, _⟩ := runLoop_logging c (e1 :: mid) sA rfl
    (by simp [sA, noRisingEdge, h1, hmid])
  have hstart := loop_start c s0 e1 hidle hprev h1
  have hA : loop c sA e1 = some (loggingPhase c sA e1, []) := by
    rw [loop_no_edge c sA e1 (by simp [sA])]
    have : ({ sA with prevButton := e1.pressed } : State) = sA := by
      simp [sA, h1]
    rw [this]
  have hrun : runLoop c s0 (e1 :: mid) =
      some (sM, [Output.digitalWrite true,
                 Output.publish "status" "Logging Started"]) := by
    rw [runLoop, hA] at r1
    rw [runLoop, hstart]
    simp only [] at r1 ⊢
    cases hr : runLoop c (loggingPhase c sA e1) mid with
    | none => rw [hr] at r1; simp at r1
    | some q =>
      rw [hr] at r1
      simp only [Option.map_some', Option.some.injEq, Prod.mk.injEq,
        List.nil_append] at r1
      simp [r1.1, r1.2]
  have hprevM : sM.prevButton = false := by
    rw [r3]
    simpa [sA, lastPressed, h1] using hlast
  have hfd : sM.forceData =
      (sessionSamples c s0.lastSample (e1 :: mid)).map Prod.snd := by
    rw [r4]; rfl
  have htd : sM.timeData =
      (sessionSamples c s0.lastSample (e1 :: mid)).map Prod.fst := by
    rw [r5]; rfl
  have hlen : sM.forceData.length ≤ sM.timeData.length := by
    rw [hfd, htd]; simp
  have hsc : sM.stepCount = sessionSteps c
      ((sessionSamples c s0.lastSample (e1 :: mid)).map Prod.snd) := by
    rw [r6]
    exact (detectSteps_congr c _ sA initState rfl rfl).1
  have hzip : sM.timeData.zip sM.forceData =
      sessionSamples c s0.lastSample (e1 :: mid) := by
    rw [hfd, htd]
    exact (List.zip_of_prod rfl rfl).symm
  have hstop := loop_stop c sM e2 r2 hprevM h2 hlen
  rw [hsc, hzip] at hstop
  refine ⟨{ resetSession sM with loggingActive := false, prevButton := true },
    ?_, rfl, rfl, rfl, rfl, rfl⟩
  have happ : e1 :: mid ++ [e2] = (e1 :: mid) ++ [e2] := rfl
  rw [happ, runLoop_snoc, hrun]
  simp only [hstop, Option.map_some']
  simp [uploadOutputs, List.append_assoc]

theorem scenario_samples :
    sessionSamples scenarioConfig initState.lastSample
      (scenarioStart :: scenarioSession) = [(1000, 3), (1100, 8), (1200, 3)] := by
  with_unfolding_all decide

theorem scenario_steps : sessionSteps scenarioConfig [3, 8, 3] = 1 := by
  with_unfolding_all decide

set_option maxRecDepth 100000 in
theorem scenario_run :
    runLoop scenarioConfig initState
        (scenarioStart :: scenarioSession ++ [scenarioStop]) =
      some ({ initState with prevButton := true, lastSample := 1200 },
        [Output.digitalWrite true, Output.publish "status" "Logging Started",
         Output.digitalWrite false, Output.publish "status" "Logging Stopped"] ++
        blink ++ blink ++ blink ++
        [Output.publish "session_data"
           "\x7b \"steps\": 1, \"force\": [\x7b\"t\":1000,\"f\":3.00\x7d,\x7b\"t\":1100,\"f\":8.00\x7d,\x7b\"t\":1200,\"f\":3.00\x7d] \x7d",
         Output.publish "status" "Upload Complete"]) := by
  with_unfolding_all decide

/-- C7: the control loop of `SmartCaneV1.cpp` as a step function over the
button level, the clock and the sensor reading. Starting idle with the
button low, the run of `loop` that sees the button high enters logging with
empty buffers and `stepCount = 0` (and then takes its own sample if one is
due); every run of `loop` while logging whose sample is due appends exactly
one (timestamp, force) sample and feeds that force to `detectStep`, and a run
whose sample is not due leaves the session alone; the next low-to-high edge
returns to idle and publishes the payload holding exactly the samples taken
during the session, in order, with the step count accumulated over them. In
the scenario, the three samples `[3, 8, 3]` at threshold `5` give exactly one
counted step and the payload has steps `1` and the three samples in order. -/
theorem session_controller (c : Config) (s0 : State) (e1 e2 : Input)
    (mid : List Input)
    (hidle : s0.loggingActive = false) (hprev : s0.prevButton = false)
    (h1 : e1.pressed = true) (hmid : noRisingEdge true mid = true)
    (hlast : lastPressed true mid = false) (h2 : e2.pressed = true) :
    loop c s0 e1 =
      some (loggingPhase c
        { s0 with loggingActive := true, forceData := [], timeData := [],
                  stepCount := 0, aboveThreshold := false, prevButton := true } e1,
        [Output.digitalWrite true, Output.publish "status" "Logging Started"])
    ∧ (sampleDue c { s0 with loggingActive := true } e1 = false →
        loop c s0 e1 =
          some ({ s0 with loggingActive := true, forceData := [], timeData := [],
                          stepCount := 0, aboveThreshold := false,
                          prevButton := true },
            [Output.digitalWrite true,
             Output.publish "status" "Logging Started"]))
    ∧ (∀ (s : State) (i : Input), s.loggingActive = true →
        (i.pressed && !s.prevButton) = false →
        ∃ s1, loop c s i = some (s1, [])
          ∧ s1.loggingActive = true
          ∧ s1.forceData =
              (if sampleDue c s i then s.forceData ++ [readForce c i.raw]
               else s.forceData)
          ∧ s1.timeData =
              (if sampleDue c s i then s.timeData ++ [i.millisPush]
               else s.timeData)
          ∧ s1.stepCount =
              (if sampleDue c s i then
                 (detectStep c (readForce c i.raw) s).stepCount
               else s.stepCount)
          ∧ s1.aboveThreshold =
              (if sampleDue c s i then
                 (detectStep c (readForce c i.raw) s).aboveThreshold
               else s.aboveThreshold))
    ∧ (∃ sEnd : State,
        runLoop c s0 (e1 :: mid ++ [e2]) =
          some (sEnd,
            [Output.digitalWrite true, Output.publish "status" "Logging Started",
             Output.digitalWrite false, Output.publish "status" "Logging Stopped"] ++
            blink ++ blink ++ blink ++
            [Output.publish "session_data"
               (sessionJSON
                 (sessionSteps c
                   ((sessionSamples c s0.lastSample (e1 :: mid)).map Prod.snd))
                 (sessionSamples c s0.lastSample (e1 :: mid))),
             Output.publish "status" "Upload Complete"])
        ∧ sEnd.loggingActive = false ∧ sEnd.forceData = [] ∧ sEnd.timeData = []
        ∧ sEnd.stepCount = 0 ∧ sEnd.aboveThreshold = false)
    ∧ sessionSamples scenarioConfig initState.lastSample
        (scenarioStart :: scenarioSession) = [(1000, 3), (1100, 8), (1200, 3)]
    ∧ sessionSteps scenarioConfig [3, 8, 3] = 1
    ∧ runLoop scenarioConfig initState
        (scenarioStart :: scenarioSession ++ [scenarioStop]) =
      some ({ initState with prevButton := true, lastSample := 1200 },
        [Output.digitalWrite true, Output.publish "status" "Logging Started",
         Output.digitalWrite false, Output.publish "status" "Logging Stopped"] ++
        blink ++ blink ++ blink ++
        [Output.publish "session_data"
           "\x7b \"steps\": 1, \"force\": [\x7b\"t\":1000,\"f\":3.00\x7d,\x7b\"t\":1100,\"f\":8.00\x7d,\x7b\"t\":1200,\"f\":3.00\x7d] \x7d",
         Output.publish "status" "Upload Complete"]) := by
  refine ⟨loop_start c s0 e1 hidle hprev h1, ?_, ?_,
    session_run c s0 e1 e2 mid hidle hprev h1 hmid hlast h2, ?_, ?_, ?_⟩
  · intro hdue
    rw [loop_start c s0 e1 hidle hprev h1]
    have hd : sampleDue c
        { s0 with loggingActive := true, forceData := [], timeData := [],
                  stepCount := 0, aboveThreshold := false, prevButton := true }
        e1 = false := hdue
    unfold loggingPhase
    rw [hd]
    rfl
  · intro s i hlog hedge
    obtain ⟨s1, e, q1, q2⟩ := loop_sample c s i hedge
    exact ⟨s1, e, by rw [q1]; exact hlog, q2⟩
  · exact scenario_samples
  · exact scenario_steps
  · exact scenario_run

/-- C7 at the scenario: idle, the button goes high at `1000` ms, samples are
taken at `1000`, `1100` and `1200` ms, the button goes high again at `1250`
ms. -/
theorem session_controller_witness :
    (initState.loggingActive = false ∧ initState.prevButton = false
      ∧ scenarioStart.pressed = true ∧ noRisingEdge true scenarioSession = true
      ∧ lastPressed true scenarioSession = false ∧ scenarioStop.pressed = true)
    ∧ ∃ sEnd : State,
        runLoop scenarioConfig initState
            (scenarioStart :: scenarioSession ++ [scenarioStop]) =
          some (sEnd,
            [Output.digitalWrite true, Output.publish "status" "Logging Started",
             Output.digitalWrite false, Output.publish "status" "Logging Stopped"] ++
            blink ++ blink ++ blink ++
            [Output.publish "session_data"
               (sessionJSON
                 (sessionSteps scenarioConfig
                   ((sessionSamples scenarioConfig initState.lastSample
                     (scenarioStart :: scenarioSession)).map Prod.snd))
                 (sessionSamples scenarioConfig initState.lastSample
                   (scenarioStart :: scenarioSession))),
             Output.publish "status" "Upload Complete"])
        ∧ sEnd.loggingActive = false ∧ sEnd.forceData = [] ∧ sEnd.timeData = []
        ∧ sEnd.stepCount = 0 ∧ sEnd.aboveThreshold = false :=
  ⟨⟨rfl, rfl, rfl, rfl, rfl, rfl⟩,
    (session_controller scenarioConfig initState scenarioStart scenarioStop
      scenarioSession rfl rfl rfl rfl rfl rfl).2.2.2.1⟩

end SmartCaneV1
